import Mathlib

/-!
Shallow embedding of src/todo.py (a Streamlit to-do application backed by a
remote SQL database).  The database state is modelled explicitly; each CRUD
function of the source becomes a pure state transformer.  SQL ORDER BY
clauses are modelled as sorts by the corresponding key; the declared schema
constraints of init_database (CHECK clauses, the foreign key with
ON DELETE CASCADE, and the absence of any UNIQUE constraint on list_name)
are modelled exactly as declared.
-/

/-- A row of the lists table, per the DDL in init_database:
list_id INTEGER PRIMARY KEY AUTOINCREMENT, list_name TEXT NOT NULL,
list_type TEXT NOT NULL CHECK(list_type IN (Simple, Financial)),
last_modified TIMESTAMP.  Timestamps are modelled as naturals. -/
structure ListRow where
  list_id : Nat
  list_name : String
  list_type : String
  last_modified : Nat
deriving DecidableEq

/-- A row of the tasks table, per the DDL in init_database:
task_id INTEGER PRIMARY KEY AUTOINCREMENT, list_id INTEGER NOT NULL,
task_name TEXT NOT NULL, urgent TEXT CHECK(urgent IN (Yes, No)),
important TEXT CHECK(important IN (Yes, No)), completed INTEGER DEFAULT 0,
FOREIGN KEY (list_id) REFERENCES lists(list_id) ON DELETE CASCADE. -/
structure TaskRow where
  task_id : Nat
  list_id : Nat
  task_name : String
  urgent : String
  important : String
  completed : Nat
deriving DecidableEq

/-- The durable state held by the persistence gateway: the two tables plus
their AUTOINCREMENT counters. -/
structure DB where
  lists : List ListRow
  tasks : List TaskRow
  nextListId : Nat
  nextTaskId : Nat
deriving DecidableEq

/-- Failures of the persistence gateway (constraint violations raised by the
declared schema, or connectivity failures of the remote database). -/
inductive PersistenceError where
  | constraintViolation : String → PersistenceError
  | connectivity : String → PersistenceError
deriving DecidableEq

/-- Byte-wise (code-point) lexicographic strict order on character lists,
modelling how SQLite compares TEXT values such as Yes and No. -/
def charListLt : List Char → List Char → Bool
  | _, [] => false
  | [], _ :: _ => true
  | a :: as, b :: bs =>
    if a.toNat < b.toNat then true
    else if b.toNat < a.toNat then false
    else charListLt as bs

/-- Strict TEXT comparison on strings, as used by ORDER BY on TEXT columns. -/
def strLt (a b : String) : Bool := charListLt a.data b.data

/-- Non-strict TEXT comparison on strings. -/
def strLe (a b : String) : Bool := !(strLt b a)

/-- Comparator for ORDER BY last_modified DESC in get_all_lists: row a comes
no later than row b when its last_modified is no smaller. -/
def listKeyLe (a b : ListRow) : Bool :=
  decide (b.last_modified ≤ a.last_modified)

/-- Comparator for the default ORDER BY completed ASC, task_id DESC branch of
get_tasks_for_list. -/
def taskDefaultLe (a b : TaskRow) : Bool :=
  if a.completed < b.completed then true
  else if b.completed < a.completed then false
  else decide (b.task_id ≤ a.task_id)

/-- Comparator for the ORDER BY urgent DESC, important DESC branch of
get_tasks_for_list (TEXT columns, so Yes sorts above No under DESC). -/
def taskUrgentLe (a b : TaskRow) : Bool :=
  if strLt b.urgent a.urgent then true
  else if strLt a.urgent b.urgent then false
  else strLe b.important a.important

/-- Comparator for the ORDER BY important DESC, urgent DESC branch of
get_tasks_for_list. -/
def taskImportantLe (a b : TaskRow) : Bool :=
  if strLt b.important a.important then true
  else if strLt a.important b.important then false
  else strLe b.urgent a.urgent

/-- An ORDER BY clause modelled as a sort by its comparator. -/
def rankBy {α : Type} (le : α → α → Bool) (l : List α) : List α :=
  List.insertionSort (fun a b => le a b = true) l

/-- The ranking applied to list rows by get_all_lists
(ORDER BY last_modified DESC). -/
def sortLists (rows : List ListRow) : List ListRow :=
  rankBy listKeyLe rows

/-- The ranking applied to task rows by get_tasks_for_list, dispatching on
sort_key exactly as the source does (note the comparisons are against the
lowercase strings urgent and important; any other value, including the
capitalized values the UI passes, selects the default branch). -/
def sortTasks (sort_key : String) (rows : List TaskRow) : List TaskRow :=
  if sort_key = "urgent" then rankBy taskUrgentLe rows
  else if sort_key = "important" then rankBy taskImportantLe rows
  else rankBy taskDefaultLe rows

/-- update_list_timestamp: UPDATE lists SET last_modified = now
WHERE list_id = given. -/
def update_list_timestamp (db : DB) (list_id : Nat) (now : Nat) : DB :=
  { db with lists := db.lists.map (fun l =>
      if l.list_id = list_id then { l with last_modified := now } else l) }

/-- The INSERT INTO lists statement executed by the gateway, enforcing the
declared constraints of the lists DDL.  The DDL declares NOT NULL and a CHECK
on list_type but no UNIQUE constraint on list_name, so a duplicate name is
not a constraint violation. -/
def insertList (db : DB) (name list_type : String) (now : Nat) :
    Except PersistenceError DB :=
  if list_type = "Simple" ∨ list_type = "Financial" then
    Except.ok { db with
      lists := db.lists ++ [⟨db.nextListId, name, list_type, now⟩],
      nextListId := db.nextListId + 1 }
  else Except.error (PersistenceError.constraintViolation "list_type CHECK")

/-- add_list: if name is truthy (non-empty) insert the row with the current
time as last_modified; an empty name skips the INSERT entirely. -/
def add_list (db : DB) (name list_type : String) (now : Nat) :
    Except PersistenceError DB :=
  if name = "" then Except.ok db
  else insertList db name list_type now

/-- The INSERT INTO tasks statement executed by the gateway, enforcing the
declared constraints of the tasks DDL: the CHECK clauses on urgent and
important and the foreign key on list_id; completed defaults to 0. -/
def insertTask (db : DB) (list_id : Nat) (task_name urgent important : String) :
    Except PersistenceError DB :=
  if ¬(urgent = "Yes" ∨ urgent = "No") then
    Except.error (PersistenceError.constraintViolation "urgent CHECK")
  else if ¬(important = "Yes" ∨ important = "No") then
    Except.error (PersistenceError.constraintViolation "important CHECK")
  else if ¬(db.lists.any (fun l => decide (l.list_id = list_id))) then
    Except.error (PersistenceError.constraintViolation "list_id FK")
  else
    Except.ok { db with
      tasks := db.tasks ++ [⟨db.nextTaskId, list_id, task_name, urgent, important, 0⟩],
      nextTaskId := db.nextTaskId + 1 }

/-- add_task: if task_name is truthy (non-empty) insert the task and then
update the owning list timestamp; an empty task_name skips both statements. -/
def add_task (db : DB) (list_id : Nat) (task_name urgent important : String)
    (now : Nat) : Except PersistenceError DB :=
  if task_name = "" then Except.ok db
  else
    match insertTask db list_id task_name urgent important with
    | Except.error e => Except.error e
    | Except.ok db2 => Except.ok (update_list_timestamp db2 list_id now)

/-- get_all_lists: SELECT * FROM lists, optionally filtered by list_type,
ORDER BY last_modified DESC.  The source wraps the query in try/except and
returns an empty list when the gateway fails; the gw argument models whether
the gateway call raises.  The codomain is an Except so that (non-)propagation
of gateway failures is expressible: the source never returns an error. -/
def get_all_lists (db : DB) (gw : Option PersistenceError) (ltype : String) :
    Except PersistenceError (List ListRow) :=
  match gw with
  | some _ => Except.ok []
  | none =>
    let rows := if ltype = "All" then db.lists
      else db.lists.filter (fun l => decide (l.list_type = ltype))
    Except.ok (sortLists rows)

/-- update_list_name: if new_name is truthy, UPDATE the name and then bump
the list timestamp via update_list_timestamp; an empty name is a no-op. -/
def update_list_name (db : DB) (list_id : Nat) (new_name : String) (now : Nat) :
    DB :=
  if new_name = "" then db
  else
    update_list_timestamp
      { db with lists := db.lists.map (fun l =>
          if l.list_id = list_id then { l with list_name := new_name } else l) }
      list_id now

/-- delete_list: DELETE FROM lists WHERE list_id = given.  Rows of the tasks
table with that list_id are deleted too, per the ON DELETE CASCADE clause of
the foreign key declared in the tasks DDL. -/
def delete_list (db : DB) (list_id : Nat) : DB :=
  { db with
    lists := db.lists.filter (fun l => !(decide (l.list_id = list_id))),
    tasks := db.tasks.filter (fun t => !(decide (t.list_id = list_id))) }

/-- get_tasks_for_list: SELECT * FROM tasks WHERE list_id = given, with the
two optional flag filters, ordered per sortTasks.  The source defaults
sort_key to the string task_id, which selects the default branch. -/
def get_tasks_for_list (db : DB) (list_id : Nat) (sort_key : String)
    (filter_urgent filter_important : Bool) : List TaskRow :=
  let rows0 := db.tasks.filter (fun t => decide (t.list_id = list_id))
  let rows1 := if filter_urgent
    then rows0.filter (fun t => decide (t.urgent = "Yes")) else rows0
  let rows2 := if filter_important
    then rows1.filter (fun t => decide (t.important = "Yes")) else rows1
  sortTasks sort_key rows2

/-- update_task_status: UPDATE tasks SET completed WHERE task_id = given,
then bump the owning list timestamp. -/
def update_task_status (db : DB) (task_id : Nat) (completed : Bool)
    (list_id : Nat) (now : Nat) : DB :=
  update_list_timestamp
    { db with tasks := db.tasks.map (fun t =>
        if t.task_id = task_id then { t with completed := if completed then 1 else 0 }
        else t) }
    list_id now

/-- delete_task: DELETE FROM tasks WHERE task_id = given, then bump the
owning list timestamp. -/
def delete_task (db : DB) (task_id : Nat) (list_id : Nat) (now : Nat) : DB :=
  update_list_timestamp
    { db with tasks := db.tasks.filter (fun t => !(decide (t.task_id = task_id))) }
    list_id now

/-- update_task_details: an empty task_name is rejected with a message before
any statement runs; otherwise UPDATE tasks SET task_name, urgent, important
WHERE task_id = given, then bump the owning list timestamp.  The source wraps
the statements in try/except that displays the error and returns normally, so
a gateway failure (modelled by gw, as in get_all_lists) leaves the state
unchanged and no error escapes. -/
def update_task_details (db : DB) (gw : Option PersistenceError)
    (task_id : Nat) (task_name urgent important : String) (list_id : Nat)
    (now : Nat) : Except PersistenceError DB :=
  if task_name = "" then Except.ok db
  else
    match gw with
    | some _ => Except.ok db
    | none =>
      Except.ok (update_list_timestamp
        { db with tasks := db.tasks.map (fun t =>
            if t.task_id = task_id then
              { t with task_name := task_name, urgent := urgent,
                       important := important }
            else t) }
        list_id now)

/-- Modelled from the spec: the Task of the caller-facing ranking surface,
carrying the two independent boolean priority flags.  No priority-score
function exists in src/todo.py (this revision orders by the raw flag
columns), so the surface is modelled from the specification. -/
structure SpecTask where
  important : Bool
  urgent : Bool
deriving DecidableEq

/-- Modelled from the spec: task_priority, the score table of section 4.1
mapping the two flags to an integer in the range one to four. -/
def task_priority (t : SpecTask) : Nat :=
  if t.important && t.urgent then 4
  else if t.important then 3
  else if t.urgent then 2
  else 1

/-- Concrete table states used to evaluate the functions on small inputs:
a list owning one completed high-flag task and one incomplete flagless task. -/
def dbUrgentMix : DB :=
  ⟨[⟨1, "L", "Simple", 0⟩],
   [⟨1, 1, "done", "Yes", "Yes", 1⟩, ⟨2, 1, "todo", "No", "No", 0⟩], 2, 3⟩

/-- A list owning two incomplete tasks: the older one carries both flags,
the newer one carries neither. -/
def dbPrioMix : DB :=
  ⟨[⟨1, "L", "Simple", 0⟩],
   [⟨1, 1, "x", "Yes", "Yes", 0⟩, ⟨2, 1, "y", "No", "No", 0⟩], 2, 3⟩

/-- Two lists with distinct timestamps and no tasks. -/
def dbTwoLists : DB :=
  ⟨[⟨1, "B", "Simple", 1⟩, ⟨2, "A", "Simple", 2⟩], [], 3, 1⟩

/-- One list named A, used to attempt a duplicate-name insertion. -/
def dbDup : DB := ⟨[⟨1, "A", "Simple", 0⟩], [], 2, 1⟩

/-- One list with timestamp zero, used to observe timestamp mutation. -/
def dbRen : DB := ⟨[⟨1, "Old", "Simple", 0⟩], [], 2, 1⟩

/-- The empty database state. -/
def dbEmpty : DB := ⟨[], [], 1, 1⟩

/-- A connectivity failure of the gateway. -/
def gwDown : PersistenceError := PersistenceError.connectivity "connection refused"

lemma rankBy_pairwise {α : Type} (le : α → α → Bool)
    (total : ∀ a b, le a b = true ∨ le b a = true)
    (htrans : ∀ a b c, le a b = true → le b c = true → le a c = true)
    (l : List α) : List.Pairwise (fun a b => le a b = true) (rankBy le l) := by
  haveI : IsTotal α (fun a b => le a b = true) := ⟨total⟩
  haveI : IsTrans α (fun a b => le a b = true) := ⟨htrans⟩
  exact List.sorted_insertionSort _ l

lemma rankBy_length {α : Type} (le : α → α → Bool) (l : List α) :
    (rankBy le l).length = l.length :=
  (List.perm_insertionSort _ l).length_eq

lemma taskDefaultLe_total :
    ∀ a b, taskDefaultLe a b = true ∨ taskDefaultLe b a = true := by
  intro a b
  simp only [taskDefaultLe]
  split_ifs <;> simp_all <;> omega

lemma taskDefaultLe_trans :
    ∀ a b c, taskDefaultLe a b = true → taskDefaultLe b c = true →
      taskDefaultLe a c = true := by
  intro a b c
  simp only [taskDefaultLe]
  split_ifs <;> simp_all <;> omega

lemma taskDefaultLe_completed_le {a b : TaskRow}
    (h : taskDefaultLe a b = true) : a.completed ≤ b.completed := by
  simp only [taskDefaultLe] at h
  split_ifs at h <;> simp_all <;> omega

lemma listKeyLe_total :
    ∀ a b, listKeyLe a b = true ∨ listKeyLe b a = true := by
  intro a b
  simp only [listKeyLe, decide_eq_true_eq]
  omega

lemma listKeyLe_trans :
    ∀ a b c, listKeyLe a b = true → listKeyLe b c = true → listKeyLe a c = true := by
  intro a b c
  simp only [listKeyLe, decide_eq_true_eq]
  omega

lemma sortTasks_nil (sk : String) : sortTasks sk [] = [] := by
  unfold sortTasks
  split_ifs <;> rfl

lemma sortTasks_default_pairwise (sk : String) (h1 : sk ≠ "urgent")
    (h2 : sk ≠ "important") (rows : List TaskRow) :
    List.Pairwise (fun a b => taskDefaultLe a b = true) (sortTasks sk rows) := by
  simp only [sortTasks, if_neg h1, if_neg h2]
  exact rankBy_pairwise _ taskDefaultLe_total taskDefaultLe_trans _

lemma filter_ne_then_eq_nil (lid : Nat) (l : List TaskRow) :
    (l.filter (fun t => !(decide (t.list_id = lid)))).filter
      (fun t => decide (t.list_id = lid)) = [] := by
  induction l with
  | nil => rfl
  | cons h t ih =>
    by_cases hc : h.list_id = lid <;> simp [hc, ih]

lemma update_list_timestamp_sets (db : DB) (lid now : Nat) :
    ∀ l ∈ (update_list_timestamp db lid now).lists,
      l.list_id = lid → l.last_modified = now := by
  intro l hl hid
  simp only [update_list_timestamp, List.mem_map] at hl
  obtain ⟨a, _, ha⟩ := hl
  by_cases h : a.list_id = lid
  · rw [if_pos h] at ha
    subst ha
    rfl
  · rw [if_neg h] at ha
    subst ha
    exact absurd hid h

/-- C1: task_priority maps the two boolean flags of a Task to an integer in
the range one to four, returning 4 iff both important and urgent hold, 3 iff
important alone, 2 iff urgent alone, and 1 iff neither holds.  The function
is modelled from the spec, since this revision of the source has no
priority-score function. -/
theorem claim_C1 : ∀ t : SpecTask,
    (task_priority t = 4 ↔ (t.important = true ∧ t.urgent = true)) ∧
    (task_priority t = 3 ↔ (t.important = true ∧ t.urgent = false)) ∧
    (task_priority t = 2 ↔ (t.important = false ∧ t.urgent = true)) ∧
    (task_priority t = 1 ↔ (t.important = false ∧ t.urgent = false)) ∧
    (task_priority t = 1 ∨ task_priority t = 2 ∨ task_priority t = 3 ∨
      task_priority t = 4) := by
  intro t
  rcases t with ⟨i, u⟩
  cases i <;> cases u <;> decide

/-- C2 counterexample: with sort_key equal to the string urgent,
get_tasks_for_list orders by the flag columns only and ignores completion, so
a completed task with both flags set is placed before an incomplete task with
neither flag, refuting the claim that every incomplete task precedes every
completed task in the ranking output. -/
theorem claim_C2_cex :
    get_tasks_for_list dbUrgentMix 1 "urgent" false false
      = [⟨1, 1, "done", "Yes", "Yes", 1⟩, ⟨2, 1, "todo", "No", "No", 0⟩] ∧
    (⟨1, 1, "done", "Yes", "Yes", 1⟩ : TaskRow).completed = 1 ∧
    (⟨2, 1, "todo", "No", "No", 0⟩ : TaskRow).completed = 0 := by decide

/-- C2 amended: whenever sort_key is neither the string urgent nor the string
important (in particular for the default value and for every value the UI
actually passes), the output of get_tasks_for_list is non-decreasing in the
completed column, so every incomplete task precedes every completed one. -/
theorem claim_C2_amended (db : DB) (lid : Nat) (sk : String) (fu fi : Bool)
    (h1 : sk ≠ "urgent") (h2 : sk ≠ "important") :
    List.Pairwise (fun a b => a.completed ≤ b.completed)
      (get_tasks_for_list db lid sk fu fi) := by
  simp only [get_tasks_for_list]
  exact (sortTasks_default_pairwise sk h1 h2 _).imp
    (fun h => taskDefaultLe_completed_le h)

/-- C2 witness: the amended theorem applied at a concrete state, once for
each of the three values the UI passes as sort_key; the capitalized strings
differ from the lowercase comparison targets, so all three satisfy the
hypotheses and select the default branch. -/
theorem claim_C2_amended_wit :
    List.Pairwise (fun a b => a.completed ≤ b.completed)
      (get_tasks_for_list dbUrgentMix 1 "Default" false false) ∧
    List.Pairwise (fun a b => a.completed ≤ b.completed)
      (get_tasks_for_list dbUrgentMix 1 "Urgent" false false) ∧
    List.Pairwise (fun a b => a.completed ≤ b.completed)
      (get_tasks_for_list dbUrgentMix 1 "Important" false false) :=
  ⟨claim_C2_amended dbUrgentMix 1 "Default" false false (by decide) (by decide),
   claim_C2_amended dbUrgentMix 1 "Urgent" false false (by decide) (by decide),
   claim_C2_amended dbUrgentMix 1 "Important" false false (by decide) (by decide)⟩

/-- C3 counterexample: within the incomplete group the default ordering of
get_tasks_for_list is by task_id descending, not by priority score: the task
whose flags give spec priority 1 is placed before the task whose flags give
spec priority 4, both incomplete, refuting the claimed key
(completed, minus priority_score, created_at); the tasks table moreover has
no created_at column. -/
theorem claim_C3_cex :
    get_tasks_for_list dbPrioMix 1 "Default" false false
      = [⟨2, 1, "y", "No", "No", 0⟩, ⟨1, 1, "x", "Yes", "Yes", 0⟩] ∧
    task_priority ⟨true, true⟩ = 4 ∧ task_priority ⟨false, false⟩ = 1 ∧
    (⟨2, 1, "y", "No", "No", 0⟩ : TaskRow).completed
      = (⟨1, 1, "x", "Yes", "Yes", 0⟩ : TaskRow).completed := by decide

/-- C3 amended: for every sort_key other than the strings urgent and
important, the output of get_tasks_for_list is sorted by the ascending
lexicographic key (completed, minus task_id): completed ascending, and
task_id descending within equal completion. -/
theorem claim_C3_amended (db : DB) (lid : Nat) (sk : String) (fu fi : Bool)
    (h1 : sk ≠ "urgent") (h2 : sk ≠ "important") :
    List.Pairwise (fun a b => taskDefaultLe a b = true)
      (get_tasks_for_list db lid sk fu fi) := by
  simp only [get_tasks_for_list]
  exact sortTasks_default_pairwise sk h1 h2 _

/-- C3 witness: the amended theorem applied at a concrete state and the
default sort key. -/
theorem claim_C3_amended_wit :
    List.Pairwise (fun a b => taskDefaultLe a b = true)
      (get_tasks_for_list dbPrioMix 1 "Default" false false) :=
  claim_C3_amended dbPrioMix 1 "Default" false false (by decide) (by decide)

/-- C4 counterexample: get_all_lists orders by last_modified descending, so
the list with the larger timestamp comes first; the claim demands ascending
timestamps within equal pinned status, and the schema has no pinned column at
all (every list ties on it), so ascending order is required of the whole
output and is refuted. -/
theorem claim_C4_cex :
    get_all_lists dbTwoLists none "All"
      = Except.ok [⟨2, "A", "Simple", 2⟩, ⟨1, "B", "Simple", 1⟩] ∧
    (⟨1, "B", "Simple", 1⟩ : ListRow).last_modified
      < (⟨2, "A", "Simple", 2⟩ : ListRow).last_modified :=
  ⟨rfl, by decide⟩

/-- C4 amended: every successful output of get_all_lists is sorted by
last_modified descending (most recently modified list first); the schema has
no pinned flag and no created_at column. -/
theorem claim_C4_amended (db : DB) (gw : Option PersistenceError)
    (ltype : String) (rows : List ListRow)
    (h : get_all_lists db gw ltype = Except.ok rows) :
    List.Pairwise (fun a b => b.last_modified ≤ a.last_modified) rows := by
  cases gw with
  | some e =>
    simp only [get_all_lists, Except.ok.injEq] at h
    subst h
    exact List.Pairwise.nil
  | none =>
    simp only [get_all_lists, Except.ok.injEq] at h
    subst h
    refine (rankBy_pairwise listKeyLe listKeyLe_total listKeyLe_trans _).imp ?_
    intro a b hab
    simpa [listKeyLe, decide_eq_true_eq] using hab

/-- C4 witness: the amended theorem applied to a concrete two-list state. -/
theorem claim_C4_amended_wit :
    List.Pairwise (fun a b => b.last_modified ≤ a.last_modified)
      [(⟨2, "A", "Simple", 2⟩ : ListRow), ⟨1, "B", "Simple", 1⟩] :=
  claim_C4_amended dbTwoLists none "All" _ rfl

/-- C5 counterexample: the lists DDL declares no UNIQUE constraint on
list_name, so inserting a list whose name A is already present succeeds (no
PersistenceError) and the row count grows from one to two, refuting both the
claimed failure and the claimed unchanged table. -/
theorem claim_C5_cex :
    add_list dbDup "A" "Simple" 5
      = Except.ok ⟨[⟨1, "A", "Simple", 0⟩, ⟨2, "A", "Simple", 5⟩], [], 3, 1⟩ ∧
    dbDup.lists.length = 1 ∧
    (⟨[⟨1, "A", "Simple", 0⟩, ⟨2, "A", "Simple", 5⟩], [], 3, 1⟩ : DB).lists.length = 2 :=
  ⟨rfl, rfl, rfl⟩

/-- C5 amended: for any non-empty name and a valid list type, add_list always
succeeds and appends exactly one row, even when the name is already in use:
list names are not unique. -/
theorem claim_C5_amended (db : DB) (name ty : String) (now : Nat)
    (hn : name ≠ "") (hty : ty = "Simple" ∨ ty = "Financial") :
    ∃ db2, add_list db name ty now = Except.ok db2 ∧
      db2.lists.length = db.lists.length + 1 := by
  have h : add_list db name ty now
      = Except.ok { db with
          lists := db.lists ++ [⟨db.nextListId, name, ty, now⟩],
          nextListId := db.nextListId + 1 } := by
    simp only [add_list, if_neg hn, insertList, if_pos hty]
  exact ⟨_, h, by simp⟩

/-- C5 witness: the amended theorem applied at a state already containing a
list named A, inserting a second list named A. -/
theorem claim_C5_amended_wit :
    ∃ db2, add_list dbDup "A" "Simple" 5 = Except.ok db2 ∧
      db2.lists.length = dbDup.lists.length + 1 :=
  claim_C5_amended dbDup "A" "Simple" 5 (by decide) (Or.inl rfl)

/-- C6: deleting a list cascades to its tasks per the ON DELETE CASCADE
clause of the tasks DDL: after delete_list, get_tasks_for_list on that list
id returns the empty sequence for every sort key and filter combination. -/
theorem claim_C6_cascade : ∀ (db : DB) (lid : Nat) (sk : String) (fu fi : Bool),
    get_tasks_for_list (delete_list db lid) lid sk fu fi = [] := by
  intro db lid sk fu fi
  have h0 : ((delete_list db lid).tasks.filter
      (fun t => decide (t.list_id = lid))) = [] :=
    filter_ne_then_eq_nil lid db.tasks
  simp only [get_tasks_for_list, h0]
  split_ifs <;> simp [sortTasks_nil]

/-- C7: the ranking steps applied by get_all_lists and get_tasks_for_list are
total functions (both are Lean functions, hence terminate on every input):
for every input row collection the output has the same length as the input,
and the empty input yields the empty output, for every sort key. -/
theorem claim_C7_total :
    (∀ rows : List ListRow, (sortLists rows).length = rows.length) ∧
    sortLists [] = [] ∧
    (∀ (sk : String) (rows : List TaskRow),
      (sortTasks sk rows).length = rows.length) ∧
    (∀ sk : String, sortTasks sk [] = []) := by
  refine ⟨fun rows => rankBy_length _ _, rfl, fun sk rows => ?_, sortTasks_nil⟩
  unfold sortTasks
  split_ifs <;> exact rankBy_length _ _

/-- C8 counterexample: when the gateway fails, get_all_lists catches the
exception and returns an empty row list as a success value; the failure is
not propagated to the caller as a PersistenceError. -/
theorem claim_C8_cex :
    get_all_lists dbEmpty (some gwDown) "All" = Except.ok [] ∧
    get_all_lists dbEmpty (some gwDown) "All" ≠ Except.error gwDown := by
  refine ⟨rfl, ?_⟩
  simp [get_all_lists]

/-- C8 amended: gateway failures are not uniformly propagated.  The two
functions with their own try/except handler swallow every failure:
get_all_lists returns the empty list as a success value, and
update_task_details returns the unchanged state as a success value, for every
database state and every error.  A function without a handler propagates the
failure unchanged: add_list with a non-empty name forwards the constraint
violation raised for an invalid list_type as an error.  No function retries. -/
theorem claim_C8_amended :
    (∀ (db : DB) (e : PersistenceError) (ltype : String),
      get_all_lists db (some e) ltype = Except.ok []) ∧
    (∀ (db : DB) (e : PersistenceError) (tid : Nat) (tn u i : String)
      (lid now : Nat),
      update_task_details db (some e) tid tn u i lid now = Except.ok db) ∧
    (∀ (db : DB) (name : String) (now : Nat), name ≠ "" →
      add_list db name "Bogus" now
        = Except.error (PersistenceError.constraintViolation "list_type CHECK")) := by
  refine ⟨fun db e ltype => rfl, fun db e tid tn u i lid now => ?_, ?_⟩
  · unfold update_task_details
    split_ifs <;> rfl
  · intro db name now hn
    rw [add_list, if_neg hn]
    rfl

/-- C8 witness: the amended theorem applied at concrete states: a failing
gateway under get_all_lists and under update_task_details, and an add_list
call whose invalid type makes the gateway raise a constraint violation that
escapes to the caller. -/
theorem claim_C8_amended_wit :
    get_all_lists dbEmpty (some gwDown) "All" = Except.ok [] ∧
    update_task_details dbRen (some gwDown) 1 "T" "Yes" "No" 1 9
      = Except.ok dbRen ∧
    add_list dbRen "X" "Bogus" 9
      = Except.error (PersistenceError.constraintViolation "list_type CHECK") :=
  ⟨claim_C8_amended.1 dbEmpty gwDown "All",
   claim_C8_amended.2.1 dbRen gwDown 1 "T" "Yes" "No" 1 9,
   claim_C8_amended.2.2 dbRen "X" 9 (by decide)⟩

/-- C9 counterexample: renaming a list rewrites its timestamp column: the
only timestamp a list carries is last_modified, which update_list_name bumps
from 0 to 7 here, refuting the claim that no subsequent operation changes the
timestamp field of an existing list. -/
theorem claim_C9_cex :
    dbRen.lists = [⟨1, "Old", "Simple", 0⟩] ∧
    (update_list_name dbRen 1 "New" 7).lists = [⟨1, "New", "Simple", 7⟩] :=
  ⟨rfl, by decide⟩

/-- C9 amended: the timestamp field of a list (last_modified) is set at
creation and then updated by later operations: renaming a list with a
non-empty name sets its last_modified to the time of the rename, and toggling
a task of the list does likewise. -/
theorem claim_C9_amended :
    (∀ (db : DB) (lid : Nat) (nm : String) (now : Nat), nm ≠ "" →
      ((update_list_name db lid nm now).lists.filter
          (fun l => decide (l.list_id = lid))).all
        (fun l => decide (l.last_modified = now)) = true) ∧
    (∀ (db : DB) (tid : Nat) (c : Bool) (lid now : Nat),
      ((update_task_status db tid c lid now).lists.filter
          (fun l => decide (l.list_id = lid))).all
        (fun l => decide (l.last_modified = now)) = true) := by
  constructor
  · intro db lid nm now hnm
    simp only [List.all_eq_true, List.mem_filter, decide_eq_true_eq]
    rintro l ⟨hl, hid⟩
    simp only [update_list_name, if_neg hnm] at hl
    exact update_list_timestamp_sets _ lid now l hl hid
  · intro db tid c lid now
    simp only [List.all_eq_true, List.mem_filter, decide_eq_true_eq]
    rintro l ⟨hl, hid⟩
    simp only [update_task_status] at hl
    exact update_list_timestamp_sets _ lid now l hl hid

/-- C9 witness: the amended theorem applied at a concrete one-list state, for
a rename and for a task status toggle. -/
theorem claim_C9_amended_wit :
    ((update_list_name dbRen 1 "New" 7).lists.filter
        (fun l => decide (l.list_id = 1))).all
      (fun l => decide (l.last_modified = 7)) = true ∧
    ((update_task_status dbRen 1 true 1 7).lists.filter
        (fun l => decide (l.list_id = 1))).all
      (fun l => decide (l.last_modified = 7)) = true :=
  ⟨claim_C9_amended.1 dbRen 1 "New" 7 (by decide),
   claim_C9_amended.2 dbRen 1 true 1 7⟩

/-- C10: creating a list or a task with an empty name is a silent no-op:
add_list and add_task return the unchanged state as a success, executing no
statement and raising no error, for every prior state. -/
theorem claim_C10_empty_name_noop :
    (∀ (db : DB) (ty : String) (now : Nat), add_list db "" ty now = Except.ok db) ∧
    (∀ (db : DB) (lid : Nat) (u i : String) (now : Nat),
      add_task db lid "" u i now = Except.ok db) :=
  ⟨fun _ _ _ => rfl, fun _ _ _ _ _ => rfl⟩
